import Mathlib

/-!
# Verification of the crash-game core (round engine, outcome generator, bet ledger)

Shallow embedding of the repository's core:

* `src/backend/src/utils/provablyFair.ts` — SHA-256 based provably-fair
  generator (`calculateHash`, `hashToNormalized`, `normalizedToMultiplier`,
  `seedsToMultiplier`, `verifyRound`);
* `src/backend/src/utils/gameAlgorithm.ts` — `generateCrashMultiplier`,
  `generateCrashMultiplierRounded`, `isValidBetAmount`, `calculateWinnings`;
* `src/backend/src/services/bet.service.ts` — `createBet`, `cashoutBet`,
  `finalizeBetsInRound` (each Prisma `$transaction` becomes one total
  function on an explicit database state; a thrown error becomes
  `Except.error`, leaving the caller's state untouched, which is exactly
  the all-or-nothing behaviour of the transaction);
* `src/backend/src/services/game.service.ts` — `createRound`,
  `updateRoundStatus`, `convertRoundData`;
* `src/backend/src/api/controllers/game.controller.ts` — the `getRound`
  endpoint's response construction.

Numeric conventions: JavaScript `number` arithmetic and Prisma `Decimal`
arithmetic are both embedded as exact rational arithmetic (`ℚ`); the Stars
balance is an integer (`ℤ`) as in the schema.  `Math.floor` is `Int.floor`,
`Math.round` is `⌊x + 1/2⌋` (round half towards +∞, as in JS for the
positive values that occur here).  Strings are hashed through their byte
sequences; seeds in this development are ASCII, where JS's UTF-8 encoding
is the identity on char codes.
-/

set_option maxRecDepth 100000

/-! ## SHA-256 (Node `crypto.createHash('sha256')`), executable -/

/-- 2^32, the modulus for 32-bit words. -/
def w32 : Nat := 4294967296

/-- Addition modulo 2^32. -/
def add32 (a b : Nat) : Nat := (a + b) % w32

/-- Right rotation of a 32-bit word. -/
def rotr32 (n x : Nat) : Nat := ((x >>> n) + ((x <<< (32 - n)) % w32)) % w32

/-- Right shift of a 32-bit word. -/
def shr32 (n x : Nat) : Nat := x >>> n

/-- Bitwise complement of a 32-bit word. -/
def not32 (x : Nat) : Nat := 4294967295 - x

/-- SHA-256 round constants. -/
def shaK : List Nat :=
  [1116352408, 1899447441, 3049323471, 3921009573, 961987163,
   1508970993, 2453635748, 2870763221, 3624381080, 310598401,
   607225278, 1426881987, 1925078388, 2162078206, 2614888103,
   3248222580, 3835390401, 4022224774, 264347078, 604807628,
   770255983, 1249150122, 1555081692, 1996064986, 2554220882,
   2821834349, 2952996808, 3210313671, 3336571891, 3584528711,
   113926993, 338241895, 666307205, 773529912, 1294757372,
   1396182291, 1695183700, 1986661051, 2177026350, 2456956037,
   2730485921, 2820302411, 3259730800, 3345764771, 3516065817,
   3600352804, 4094571909, 275423344, 430227734, 506948616,
   659060556, 883997877, 958139571, 1322822218, 1537002063,
   1747873779, 1955562222, 2024104815, 2227730452, 2361852424,
   2428436474, 2756734187, 3204031479, 3329325298]

/-- SHA-256 initial hash state. -/
def shaH0 : List Nat :=
  [1779033703, 3144134277, 1013904242, 2773480762,
   1359893119, 2600822924, 528734635, 1541459225]

/-- Big-endian packing of four bytes into one 32-bit word. -/
def word4 (a b c d : Nat) : Nat := ((a * 256 + b) * 256 + c) * 256 + d

/-- Pack a byte list into big-endian 32-bit words (length divisible by 4). -/
def bytesToWords : List Nat → List Nat
  | a :: b :: c :: d :: rest => word4 a b c d :: bytesToWords rest
  | _ => []

/-- SHA-256 message padding: append `0x80`, zeros to 56 mod 64, and the
bit length as an 8-byte big-endian integer. -/
def shaPad (msg : List Nat) : List Nat :=
  let len := msg.length
  let zeros := (64 - ((len + 9) % 64)) % 64
  let bitLen := len * 8
  msg ++ [0x80] ++ List.replicate zeros 0 ++
    [bitLen / 72057594037927936 % 256,
     bitLen / 281474976710656 % 256,
     bitLen / 1099511627776 % 256,
     bitLen / 4294967296 % 256,
     bitLen / 16777216 % 256,
     bitLen / 65536 % 256,
     bitLen / 256 % 256,
     bitLen % 256]

/-- Extend the 16 words of a block to the 64-entry message schedule.
`w` is kept in reverse order while extending. -/
def shaExtend : Nat → List Nat → List Nat
  | 0, w => w.reverse
  | n + 1, w =>
      let w15 := w.getD 14 0
      let w2 := w.getD 1 0
      let w16 := w.getD 15 0
      let w7 := w.getD 6 0
      let s0 := Nat.xor (Nat.xor (rotr32 7 w15) (rotr32 18 w15)) (shr32 3 w15)
      let s1 := Nat.xor (Nat.xor (rotr32 17 w2) (rotr32 19 w2)) (shr32 10 w2)
      shaExtend n ((add32 (add32 w16 s0) (add32 w7 s1)) :: w)

/-- One SHA-256 compression round: state is the tuple (a,b,c,d,e,f,g,h). -/
def shaRound (st : List Nat) (kw : Nat × Nat) : List Nat :=
  match st with
  | [a, b, c, d, e, f, g, h] =>
      let s1 := Nat.xor (Nat.xor (rotr32 6 e) (rotr32 11 e)) (rotr32 25 e)
      let ch := Nat.xor (Nat.land e f) (Nat.land (not32 e) g)
      let t1 := add32 (add32 (add32 h s1) (add32 ch kw.1)) kw.2
      let s0 := Nat.xor (Nat.xor (rotr32 2 a) (rotr32 13 a)) (rotr32 22 a)
      let mj := Nat.xor (Nat.xor (Nat.land a b) (Nat.land a c)) (Nat.land b c)
      let t2 := add32 s0 mj
      [add32 t1 t2, a, b, c, add32 d t1, e, f, g]
  | other => other

/-- Process one 64-byte block against the running hash state. -/
def shaBlock (h : List Nat) (block : List Nat) : List Nat :=
  let w := shaExtend 48 (bytesToWords block).reverse
  let st := (shaK.zip w).foldl shaRound h
  (h.zip st).map fun p => add32 p.1 p.2

/-- Fold the first `n` 64-byte chunks of the padded message (structural
recursion on the chunk count, so that the kernel can evaluate it). -/
def shaChunks : Nat → List Nat → List Nat → List Nat
  | 0, h, _ => h
  | n + 1, h, l => shaChunks n (shaBlock h (l.take 64)) (l.drop 64)

/-- SHA-256 of a byte list, as the list of eight 32-bit state words. -/
def sha256Words (msg : List Nat) : List Nat :=
  let padded := shaPad msg
  shaChunks (padded.length / 64) shaH0 padded

/-- Lowercase hex digit for a value below 16. -/
def hexDigit (n : Nat) : Char :=
  if n < 10 then Char.ofNat (48 + n) else Char.ofNat (87 + n)

/-- Eight lowercase hex digits of a 32-bit word. -/
def wordToHex (x : Nat) : List Char :=
  [hexDigit (x / 268435456 % 16), hexDigit (x / 16777216 % 16),
   hexDigit (x / 1048576 % 16), hexDigit (x / 65536 % 16),
   hexDigit (x / 4096 % 16), hexDigit (x / 256 % 16),
   hexDigit (x / 16 % 16), hexDigit (x % 16)]

/-- The byte sequence of an ASCII string (JS UTF-8 encoding restricted to
ASCII, where it is the identity on char codes). -/
def strBytes (s : String) : List Nat := s.data.map Char.toNat

/-- SHA-256 of a string, as a 64-character lowercase hex string:
`crypto.createHash('sha256').update(s).digest('hex')`. -/
def sha256Hex (s : String) : String :=
  ⟨(sha256Words (strBytes s)).flatMap wordToHex⟩


/-! ## Provably-fair generator (`provablyFair.ts`, `gameAlgorithm.ts`)

Money and multiplier arithmetic is embedded as exact rational arithmetic. -/

/-- `calculateHash(serverSeed, clientSeed)`: SHA-256 of the concatenation,
as a lowercase hex string. -/
def calculateHash (serverSeed clientSeed : String) : String :=
  sha256Hex (serverSeed ++ clientSeed)

/-- Value of one hexadecimal digit, or `none` for a non-digit
(`parseInt(.., 16)` stops at the first non-digit). -/
def hexVal (c : Char) : Option Nat :=
  if 48 ≤ c.toNat ∧ c.toNat ≤ 57 then some (c.toNat - 48)
  else if 97 ≤ c.toNat ∧ c.toNat ≤ 102 then some (c.toNat - 87)
  else if 65 ≤ c.toNat ∧ c.toNat ≤ 70 then some (c.toNat - 55)
  else none

/-- `parseInt(s, 16)` on a string of hex digits: fold the longest prefix of
valid digits. -/
def parseIntHex (s : String) : Nat :=
  (((s.data.map hexVal).takeWhile Option.isSome).map (fun o => o.getD 0)).foldl
    (fun acc d => acc * 16 + d) 0

/-- `hashToNormalized(hash)`: first 8 hex chars, as an integer, reduced
modulo 10000 and divided by 10000. -/
def hashToNormalized (hash : String) : ℚ :=
  let hashInt := parseIntHex ⟨hash.data.take 8⟩
  ((hashInt % 10000 : ℕ) : ℚ) / 10000

/-- The game configuration constants that the core functions read
(`gameConfig.ts`, with the environment variables at their defaults and
`ENABLE_DYNAMIC_MAX` off). -/
structure GameConfig where
  MIN_MULTIPLIER : ℚ
  MAX_MULTIPLIER : ℚ
  HOUSE_FEE : ℚ
  MIN_BET_TON : ℚ
  MAX_BET_TON : ℚ
  MIN_BET_STARS : ℚ
  MAX_BET_STARS : ℚ

/-- Default `GAME_CONFIG` values. -/
def GAME_CONFIG : GameConfig :=
  { MIN_MULTIPLIER := 1
    MAX_MULTIPLIER := 100
    HOUSE_FEE := 1 / 100
    MIN_BET_TON := 1 / 10
    MAX_BET_TON := 100
    MIN_BET_STARS := 10
    MAX_BET_STARS := 1000 }

/-- `getMaxMultiplier()` with dynamic maximum disabled (the default). -/
def getMaxMultiplier : ℚ := GAME_CONFIG.MAX_MULTIPLIER

/-- `normalizedToMultiplier(normalized)`: clamp to `[0, 0.9999]` and apply
the inverse map `1 / (1 - n)`. -/
def normalizedToMultiplier (normalized : ℚ) : ℚ :=
  let n := max 0 (min (9999 / 10000) normalized)
  1 / (1 - n)

/-! ### IEEE-754 binary64 semantics of `normalizedToMultiplier`

`normalizedToMultiplier` above reads the source's `number` arithmetic as
exact rationals.  That reading is faithful wherever the downstream
2-decimal rounding and the 0.01 verification tolerance absorb the double
rounding error, but not for claims about the *exact* raw value of the
map, so the expression `1.0 / (1.0 - Math.max(0, Math.min(0.9999, n)))`
is also modelled at the binary64 level: every double is the exact
rational it represents, and each arithmetic operation rounds its exact
result to the nearest binary64 (ties to even, 53-bit significand; all
values reached here are strictly inside the normal range, so neither
subnormals nor overflow need modelling). -/

/-- Fuel-driven `⌊log2 n⌋` on naturals (structural recursion, so the
kernel can evaluate it; fuel 200 covers all numbers below `2^200`). -/
def natLog2F : ℕ → ℕ → ℕ
  | 0, _ => 0
  | f + 1, n => if n ≤ 1 then 0 else natLog2F f (n / 2) + 1

/-- `⌊log2 (a/b)⌋` of a positive fraction of naturals. -/
def fracLog2 (a b : ℕ) : ℤ :=
  let e : ℤ := (natLog2F 200 a : ℤ) - (natLog2F 200 b : ℤ)
  if 0 ≤ e then (if a < 2 ^ e.toNat * b then e - 1 else e)
  else (if a * 2 ^ (-e).toNat < b then e - 1 else e)

/-- Round the positive fraction `a/b` to the nearest binary64 (ties to
even), as a (mantissa, exponent) pair with `2^52 ≤ mantissa < 2^53`
(normal range; `a, b ≥ 1`). -/
def fpRoundFrac (a b : ℕ) : ℕ × ℤ :=
  let e := fracLog2 a b - 52
  let scaled : ℕ × ℕ := if 0 ≤ e then (a, b * 2 ^ e.toNat) else (a * 2 ^ (-e).toNat, b)
  let m := scaled.1 / scaled.2
  let r2 := 2 * (scaled.1 % scaled.2)
  let m' := if r2 < scaled.2 then m
    else if scaled.2 < r2 then m + 1
    else if m % 2 = 0 then m else m + 1
  (m', e)

/-- The rational value of a (mantissa, exponent) pair. -/
def mantExp (p : ℕ × ℤ) : ℚ :=
  if 0 ≤ p.2 then (p.1 : ℚ) * ((2 ^ p.2.toNat : ℕ) : ℚ)
  else (p.1 : ℚ) / ((2 ^ (-p.2).toNat : ℕ) : ℚ)

/-- The binary64 nearest to the rational `q` (as an exact rational). -/
def fpRound (q : ℚ) : ℚ :=
  if q = 0 then 0
  else if 0 < q then mantExp (fpRoundFrac q.num.natAbs q.den)
  else -mantExp (fpRoundFrac q.num.natAbs q.den)

/-- Binary64 subtraction: the exact difference, rounded. -/
def fpSub (a b : ℚ) : ℚ := fpRound (a - b)

/-- Binary64 division: the exact quotient, rounded. -/
def fpDiv (a b : ℚ) : ℚ := fpRound (a / b)

/-- `normalizedToMultiplier(normalized)` under binary64 semantics: the
input is stored as a double, `Math.max`/`Math.min` compare and return
doubles exactly, and the subtraction and division of
`1.0 / (1.0 - n)` each round their exact result. -/
def normalizedToMultiplierFP (normalized : ℚ) : ℚ :=
  let n := max (fpRound 0) (min (fpRound (9999 / 10000)) (fpRound normalized))
  fpDiv (fpRound 1) (fpSub (fpRound 1) n)

/-- `seedsToMultiplier(serverSeed, clientSeed)`: hash, normalize, map —
with no min/max clamping and no rounding. -/
def seedsToMultiplier (serverSeed clientSeed : String) : ℚ :=
  normalizedToMultiplier (hashToNormalized (calculateHash serverSeed clientSeed))

/-- `generateCrashMultiplier(serverSeed, clientSeed)`: the full algorithm,
clamped above by `getMaxMultiplier()` and below by `MIN_MULTIPLIER`. -/
def generateCrashMultiplier (serverSeed clientSeed : String) : ℚ :=
  let hash := calculateHash serverSeed clientSeed
  let normalized := hashToNormalized hash
  let multiplier := normalizedToMultiplier normalized
  let multiplier := min multiplier getMaxMultiplier
  max multiplier GAME_CONFIG.MIN_MULTIPLIER

/-- JavaScript `Math.round` (round half towards positive infinity). -/
def jsRound (q : ℚ) : ℤ := ⌊q + 1 / 2⌋

/-- `generateCrashMultiplierRounded`: round the multiplier to 2 decimals. -/
def generateCrashMultiplierRounded (serverSeed clientSeed : String) : ℚ :=
  (jsRound (generateCrashMultiplier serverSeed clientSeed * 100) : ℚ) / 100

/-- Settlement currencies. -/
inductive Currency where
  | ton
  | stars
deriving DecidableEq, Repr

/-- `isValidBetAmount(amount, currency)`. -/
def isValidBetAmount (amount : ℚ) (currency : Currency) : Bool :=
  match currency with
  | .ton => decide (GAME_CONFIG.MIN_BET_TON ≤ amount ∧ amount ≤ GAME_CONFIG.MAX_BET_TON)
  | .stars => decide (GAME_CONFIG.MIN_BET_STARS ≤ amount ∧ amount ≤ GAME_CONFIG.MAX_BET_STARS)

/-- `calculateWinnings(betAmount, multiplier)`: net profit after the house
fee on gross winnings, with the stake subtracted. -/
def calculateWinnings (betAmount multiplier : ℚ) : ℚ :=
  if multiplier < GAME_CONFIG.MIN_MULTIPLIER then
    -betAmount
  else
    let grossWinnings := betAmount * multiplier
    let houseFeeAmount := grossWinnings * GAME_CONFIG.HOUSE_FEE
    let netWinnings := grossWinnings - houseFeeAmount
    netWinnings - betAmount

/-- `VerificationResult` of `verifyRound`. -/
structure VerificationResult where
  verified : Bool
  error : Option String
  calculatedMultiplier : Option ℚ
  expectedMultiplier : Option ℚ
  hash : Option String
deriving DecidableEq, Repr

/-- `verifyRound(serverSeed, clientSeed, expectedMultiplier)`: recomputes
the multiplier from the two seeds and accepts when it is within a `0.01`
tolerance of the expected one.  It takes no commitment hash as input. -/
def verifyRound (serverSeed clientSeed : String) (expectedMultiplier : ℚ) :
    VerificationResult :=
  if serverSeed = "" ∨ clientSeed = "" then
    { verified := false
      error := some "empty seeds"
      calculatedMultiplier := none
      expectedMultiplier := none
      hash := none }
  else
    let calculatedMultiplier := seedsToMultiplier serverSeed clientSeed
    let hash := calculateHash serverSeed clientSeed
    let isValid := decide (|calculatedMultiplier - expectedMultiplier| < 1 / 100)
    { verified := isValid
      error := if isValid then none else some "multiplier mismatch"
      calculatedMultiplier := some calculatedMultiplier
      expectedMultiplier := some expectedMultiplier
      hash := some hash }


/-! ## Data model and ledger state (`bet.service.ts`, `game.service.ts`)

The Prisma store becomes an explicit `Db` value.  Each `$transaction`
becomes one total function `Db → Except BetError (Db × _)`: a thrown error
is `Except.error`, which returns no new state — exactly the transaction's
all-or-nothing rollback.  Timestamps (`startTime`, `endTime`,
`lastActivity`, `createdAt`) play no part in any claim and are omitted. -/

/-- A user row (`users`): TON balance is a `Decimal`, Stars balance an
integer column. -/
structure User where
  chatId : String
  tonBalance : ℚ
  starsBalance : ℤ
deriving DecidableEq, Repr

/-- `GameStatus` enum: `betting → flying → crashed`. -/
inductive GameStatus where
  | betting
  | flying
  | crashed
deriving DecidableEq, Repr

/-- A round row (`game_rounds`). -/
structure GameRound where
  id : String
  crashPoint : ℚ
  serverSeed : String
  hashedServerSeed : String
  status : GameStatus
  houseFee : ℚ
deriving DecidableEq, Repr

/-- A bet row (`bets`); `cashoutAt` and `profit` are nullable columns. -/
structure Bet where
  id : String
  chatId : String
  roundId : String
  amount : ℚ
  currency : Currency
  cashoutAt : Option ℚ
  cashedOut : Bool
  profit : Option ℚ
deriving DecidableEq, Repr

/-- The database state. -/
structure Db where
  users : List User
  rounds : List GameRound
  bets : List Bet
deriving DecidableEq, Repr

/-- Errors thrown by the ledger operations, by the message thrown in the
source: round / bet lookups, phase guards, duplicate and balance guards. -/
inductive BetError where
  | invalidAmount
  | roundNotFound
  | roundNotAcceptingBets
  | duplicateBet
  | userNotFound
  | insufficientBalance
  | betNotFound
  | betAlreadyCashedOut
  | roundNotLive
deriving DecidableEq, Repr

/-- `tx.gameRound.findUnique({ where: { id } })`. -/
def findRound (db : Db) (roundId : String) : Option GameRound :=
  db.rounds.find? (fun r => r.id == roundId)

/-- `tx.user.findUnique({ where: { chatId } })`. -/
def findUser (db : Db) (chatId : String) : Option User :=
  db.users.find? (fun u => u.chatId == chatId)

/-- `tx.bet.findUnique({ where: { id } })`. -/
def findBet (db : Db) (betId : String) : Option Bet :=
  db.bets.find? (fun b => b.id == betId)

/-- `tx.bet.findFirst({ where: { chatId, roundId } })` — the duplicate
check of `createBet`. -/
def findBetByUserRound (db : Db) (chatId roundId : String) : Option Bet :=
  db.bets.find? (fun b => b.chatId == chatId && b.roundId == roundId)

/-- `tx.user.update({ where: { chatId }, data: .. })`. -/
def updateUser (db : Db) (chatId : String) (f : User → User) : Db :=
  { db with users := db.users.map (fun u => if u.chatId == chatId then f u else u) }

/-- `BetService.createBet` (`bet.service.ts` lines 73–175): validate the
amount, then in one transaction check the round phase, the duplicate-bet
guard, the user and the balance, debit the balance (`decrement: amount`
for TON, `decrement: Math.floor(amount)` for Stars) and insert the bet
with the schema defaults `cashedOut=false`, `cashoutAt=null`,
`profit=null`.  `newBetId` stands for the generated row id. -/
def createBet (db : Db) (newBetId chatId roundId : String) (amount : ℚ)
    (currency : Currency) : Except BetError (Db × Bet) :=
  if isValidBetAmount amount currency = false then .error .invalidAmount
  else match findRound db roundId with
  | none => .error .roundNotFound
  | some round =>
    if round.status ≠ GameStatus.betting then .error .roundNotAcceptingBets
    else match findBetByUserRound db chatId roundId with
    | some _ => .error .duplicateBet
    | none => match findUser db chatId with
      | none => .error .userNotFound
      | some user =>
        if currency = .ton ∧ user.tonBalance < amount then .error .insufficientBalance
        else if currency = .stars ∧ (user.starsBalance : ℚ) < amount then
          .error .insufficientBalance
        else
          let db' := match currency with
            | .ton => updateUser db chatId
                (fun u => { u with tonBalance := u.tonBalance - amount })
            | .stars => updateUser db chatId
                (fun u => { u with starsBalance := u.starsBalance - ⌊amount⌋ })
          let bet : Bet :=
            { id := newBetId, chatId := chatId, roundId := roundId, amount := amount
              currency := currency, cashoutAt := none, cashedOut := false, profit := none }
          .ok ({ db' with bets := db'.bets ++ [bet] }, bet)

/-- `BetService.cashoutBet` (`bet.service.ts` lines 192–281): in one
transaction, load the bet, reject if already cashed out, lock and load the
round (`SELECT .. FOR UPDATE`), reject unless its status is `flying`,
then set `cashoutAt`, `cashedOut`, `profit` on the bet and credit
`totalPayout = amount + profit` to the balance (`increment: totalPayout`
for TON, `increment: Math.floor(totalPayout)` for Stars). -/
def cashoutBet (db : Db) (betId : String) (serverMultiplier : ℚ) :
    Except BetError (Db × Bet × ℚ) :=
  match findBet db betId with
  | none => .error .betNotFound
  | some bet =>
    if bet.cashedOut then .error .betAlreadyCashedOut
    else match findRound db bet.roundId with
    | none => .error .roundNotFound
    | some round =>
      if round.status ≠ GameStatus.flying then .error .roundNotLive
      else
        let profit := calculateWinnings bet.amount serverMultiplier
        let updatedBet : Bet :=
          { bet with cashoutAt := some serverMultiplier, cashedOut := true
                     profit := some profit }
        let db' := { db with
          bets := db.bets.map (fun b => if b.id == betId then updatedBet else b) }
        let totalPayout := bet.amount + profit
        let db'' := match bet.currency with
          | .ton => updateUser db' bet.chatId
              (fun u => { u with tonBalance := u.tonBalance + totalPayout })
          | .stars => updateUser db' bet.chatId
              (fun u => { u with starsBalance := u.starsBalance + ⌊totalPayout⌋ })
        .ok (db'', updatedBet, totalPayout)

/-- The row transformer of the raw
`UPDATE bets SET profit = -amount WHERE round_id = .. AND cashed_out = false`
in `BetService.finalizeBetsInRound`. -/
def finalizeBetLoss (roundId : String) (b : Bet) : Bet :=
  if b.roundId == roundId && b.cashedOut == false then
    { b with profit := some (-b.amount) }
  else b

/-- `BetService.finalizeBetsInRound` (`bet.service.ts` lines 337–368):
every not-cashed-out bet of the round gets `profit = -amount`; nothing
else changes (in particular no balance changes). -/
def finalizeBetsInRound (db : Db) (roundId : String) : Db :=
  { db with bets := db.bets.map (finalizeBetLoss roundId) }

/-- `GameService.createRound` (`game.service.ts` lines 101–138) on the
generated path: `serverSeed` is fresh randomness, `clientSeed` is the
fresh random value from `generateClientSeed()` used to derive
`crashPoint` — note the created row has no field for it, so it is never
stored.  `id` stands for the generated row id. -/
def createRound (id serverSeed clientSeed : String) : GameRound :=
  { id := id
    crashPoint := generateCrashMultiplierRounded serverSeed clientSeed
    serverSeed := serverSeed
    hashedServerSeed := calculateHash serverSeed ""
    status := GameStatus.betting
    houseFee := GAME_CONFIG.HOUSE_FEE }

/-- `GameService.updateRoundStatus`: update the status column only (the
`endTime` it also touches is not modelled). -/
def updateRoundStatus (db : Db) (roundId : String) (status : GameStatus) : Db :=
  { db with
    rounds := db.rounds.map fun r =>
      if r.id == roundId then { r with status := status } else r }

/-- `RoundData`, the client-safe projection type: `crashPoint` and
`serverSeed` are optional fields. -/
structure RoundData where
  id : String
  crashPoint : Option ℚ
  serverSeed : Option String
  hashedServerSeed : String
  status : GameStatus
  houseFee : ℚ
deriving DecidableEq, Repr

/-- `GameService.convertRoundData` (`game.service.ts` lines 296–314): the
secret fields are added to the base data only when `status === 'crashed'`. -/
def convertRoundData (round : GameRound) : RoundData :=
  let baseData : RoundData :=
    { id := round.id, crashPoint := none, serverSeed := none
      hashedServerSeed := round.hashedServerSeed, status := round.status
      houseFee := round.houseFee }
  if round.status = GameStatus.crashed then
    { baseData with crashPoint := some round.crashPoint
                    serverSeed := some round.serverSeed }
  else baseData

/-- The JSON object built by the REST `getRound` endpoint
(`game.controller.ts` lines 54–104), keys modelled as `Option` fields
(`none` = key absent).  The endpoint copies `crashPoint` from the
`RoundData` only when the round is crashed and never adds a `serverSeed`
key. -/
structure GetRoundResponse where
  roundId : String
  status : GameStatus
  crashPoint : Option ℚ
  serverSeed : Option String
deriving DecidableEq, Repr

/-- Response construction of the `getRound` endpoint for a found round. -/
def getRoundResponse (round : RoundData) : GetRoundResponse :=
  let data : GetRoundResponse :=
    { roundId := round.id, status := round.status
      crashPoint := none, serverSeed := none }
  if round.status = GameStatus.crashed then { data with crashPoint := round.crashPoint }
  else data


/-- The per-(account, round) uniqueness invariant of the bets table — the
content of the `unique_user_bet_per_round` constraint
(`add_balance_check_constraints.sql`): no two bet rows share the same
`(chatId, roundId)` pair. -/
def UniqueBets (db : Db) : Prop :=
  db.bets.Pairwise (fun a b => ¬(a.chatId = b.chatId ∧ a.roundId = b.roundId))

/-- Primary-key uniqueness of bet rows (`id UUID PRIMARY KEY`). -/
def UniqueBetIds (db : Db) : Prop :=
  db.bets.Pairwise (fun a b => a.id ≠ b.id)

/-! ## Concrete fixtures used in closed instances of the theorems -/

/-- A user with 100 TON and 100 Stars. -/
def userT : User := { chatId := "u1", tonBalance := 100, starsBalance := 100 }

/-- A round in the betting phase. -/
def roundBetting : GameRound :=
  { id := "r1", crashPoint := 3, serverSeed := "a", hashedServerSeed := "h"
    status := GameStatus.betting, houseFee := 1 / 100 }

/-- The same round in the flying phase. -/
def roundFlying : GameRound := { roundBetting with status := GameStatus.flying }

/-- The same round crashed. -/
def roundCrashed : GameRound := { roundBetting with status := GameStatus.crashed }

/-- An open (not cashed-out, unresolved) 10 TON bet of `userT` on `r1`. -/
def betOpen : Bet :=
  { id := "b1", chatId := "u1", roundId := "r1", amount := 10, currency := Currency.ton
    cashoutAt := none, cashedOut := false, profit := none }

/-- A second user's already cashed-out bet on `r1`. -/
def betCashed : Bet :=
  { id := "b2", chatId := "u2", roundId := "r1", amount := 5, currency := Currency.ton
    cashoutAt := some 2, cashedOut := true, profit := some (49 / 10) }

/-- State with the round accepting bets and no bets yet. -/
def dbBetting : Db := { users := [userT], rounds := [roundBetting], bets := [] }

/-- State with the round flying and one open and one cashed-out bet. -/
def dbFlying : Db := { users := [userT], rounds := [roundFlying], bets := [betOpen, betCashed] }

/-- State with the round crashed and the same two bets. -/
def dbCrashed : Db := { users := [userT], rounds := [roundCrashed], bets := [betOpen, betCashed] }

/-- A user holding only Stars. -/
def userS : User := { chatId := "u2", tonBalance := 0, starsBalance := 100 }

/-- State with the Stars user and the betting round. -/
def dbStars : Db := { users := [userS], rounds := [roundBetting], bets := [] }

/-- `userT` after a 10 TON debit. -/
def userT90 : User := { chatId := "u1", tonBalance := 90, starsBalance := 100 }

/-- The bet row created by a successful 10 TON `createBet` on `r1`. -/
def betNew : Bet :=
  { id := "n1", chatId := "u1", roundId := "r1", amount := 10, currency := Currency.ton
    cashoutAt := none, cashedOut := false, profit := none }

/-- `dbBetting` after that successful `createBet`. -/
def dbAfterBet : Db := { users := [userT90], rounds := [roundBetting], bets := [betNew] }

/-! ## Evaluation lemmas and sanity checks for the generator -/

/-- Helper: reduce `generateCrashMultiplierRounded` to rational arithmetic
once the (decidable) hash computation has produced its value mod 10000. -/
theorem generateCrashMultiplierRounded_eq_of_mod (s c : String) (k : ℕ)
    (h : parseIntHex ⟨(calculateHash s c).data.take 8⟩ % 10000 = k) :
    generateCrashMultiplierRounded s c =
      (jsRound (max (min (1 / (1 - max 0 (min (9999 / 10000) ((k : ℚ) / 10000))))
        100) 1 * 100) : ℚ) / 100 := by
  simp only [generateCrashMultiplierRounded, generateCrashMultiplier, hashToNormalized,
    normalizedToMultiplier, getMaxMultiplier, GAME_CONFIG, h]

/-- Helper: the same reduction for the unrounded `seedsToMultiplier`. -/
theorem seedsToMultiplier_eq_of_mod (s c : String) (k : ℕ)
    (h : parseIntHex ⟨(calculateHash s c).data.take 8⟩ % 10000 = k) :
    seedsToMultiplier s c = 1 / (1 - max 0 (min (9999 / 10000) ((k : ℚ) / 10000))) := by
  simp only [seedsToMultiplier, hashToNormalized, normalizedToMultiplier, h]

example : generateCrashMultiplierRounded "a" "" = 295 / 100 := by
  rw [generateCrashMultiplierRounded_eq_of_mod "a" "" 6610 (by decide)]
  norm_num [jsRound]

example : generateCrashMultiplierRounded "a" "b" = 237 / 100 := by
  rw [generateCrashMultiplierRounded_eq_of_mod "a" "b" 5772 (by decide)]
  norm_num [jsRound]

example : normalizedToMultiplier (1 / 2) = 2 := by
  norm_num [normalizedToMultiplier]

example : calculateWinnings 10 (5 / 2) = 59 / 4 := by
  norm_num [calculateWinnings, GAME_CONFIG]

/-- NIST test vector. -/
example : sha256Hex "abc" =
    "ba7816bf8f01cfea414140de5dae2223b00361a396177a9cb410ff61f20015ad" := by
  decide

/-- Empty-message test vector. -/
example : sha256Hex "" =
    "e3b0c44298fc1c149afbf4c8996fb92427ae41e4649b934ca495991b7852b855" := by
  decide

/-! ## Inversion lemmas for the ledger operations -/

/-- A successful `createBet` implies every precondition and describes the
new state exactly: the round exists in the betting phase, there is no
previous bet of the user in the round, the user exists with a sufficient
balance, and the returned state debits the balance (exact amount for TON,
floored for Stars) and appends the new bet row. -/
theorem createBet_ok_elim {db : Db} {newBetId chatId roundId : String} {amount : ℚ}
    {currency : Currency} {db' : Db} {bet : Bet}
    (h : createBet db newBetId chatId roundId amount currency = .ok (db', bet)) :
    isValidBetAmount amount currency = true ∧
    ∃ round user,
      findRound db roundId = some round ∧ round.status = GameStatus.betting ∧
      findBetByUserRound db chatId roundId = none ∧
      findUser db chatId = some user ∧
      (currency = .ton → amount ≤ user.tonBalance) ∧
      (currency = .stars → amount ≤ (user.starsBalance : ℚ)) ∧
      bet = { id := newBetId, chatId := chatId, roundId := roundId, amount := amount
              currency := currency, cashoutAt := none, cashedOut := false
              profit := none } ∧
      db'.rounds = db.rounds ∧
      db'.bets = db.bets ++ [bet] ∧
      db'.users = (match currency with
        | .ton => updateUser db chatId
            (fun u => { u with tonBalance := u.tonBalance - amount })
        | .stars => updateUser db chatId
            (fun u => { u with starsBalance := u.starsBalance - ⌊amount⌋ })).users := by
  unfold createBet at h
  split at h
  · exact absurd h (by simp)
  · constructor
    · rename_i hv
      simpa using hv
    · split at h
      · exact absurd h (by simp)
      · rename_i round hr
        split at h
        · exact absurd h (by simp)
        · rename_i hst
          split at h
          · exact absurd h (by simp)
          · rename_i hdup
            split at h
            · exact absurd h (by simp)
            · rename_i user hu
              split at h
              · exact absurd h (by simp)
              · split at h
                · exact absurd h (by simp)
                · rename_i hton hstars
                  refine ⟨round, user, hr, not_not.mp hst, hdup, hu, ?_, ?_, ?_, ?_, ?_, ?_⟩
                  · intro hc
                    rcases not_and.mp hton hc with hlt
                    exact le_of_not_lt hlt
                  · intro hc
                    rcases not_and.mp hstars hc with hlt
                    exact le_of_not_lt hlt
                  all_goals (
                    simp only [Except.ok.injEq, Prod.mk.injEq] at h
                    obtain ⟨hdb, hbet⟩ := h
                    subst hdb
                    subst hbet
                    cases currency <;> rfl)

/-- An existing round that is not in the betting phase makes `createBet`
fail with the round-not-accepting-bets error. -/
theorem createBet_roundNotAcceptingBets {db : Db} {newBetId chatId roundId : String}
    {amount : ℚ} {currency : Currency} {round : GameRound}
    (hv : isValidBetAmount amount currency = true)
    (hr : findRound db roundId = some round)
    (hs : round.status ≠ GameStatus.betting) :
    createBet db newBetId chatId roundId amount currency = .error .roundNotAcceptingBets := by
  simp [createBet, hv, hr, hs]

/-- An existing bet of the same user in the same round makes `createBet`
fail with the duplicate-bet error. -/
theorem createBet_duplicateBet {db : Db} {newBetId chatId roundId : String}
    {amount : ℚ} {currency : Currency} {round : GameRound} {b : Bet}
    (hv : isValidBetAmount amount currency = true)
    (hr : findRound db roundId = some round)
    (hs : round.status = GameStatus.betting)
    (hdup : findBetByUserRound db chatId roundId = some b) :
    createBet db newBetId chatId roundId amount currency = .error .duplicateBet := by
  simp [createBet, hv, hr, hs, hdup]

/-- A TON balance below the stake makes `createBet` fail with the
insufficient-balance error. -/
theorem createBet_insufficient_ton {db : Db} {newBetId chatId roundId : String}
    {amount : ℚ} {round : GameRound} {user : User}
    (hv : isValidBetAmount amount Currency.ton = true)
    (hr : findRound db roundId = some round)
    (hs : round.status = GameStatus.betting)
    (hdup : findBetByUserRound db chatId roundId = none)
    (hu : findUser db chatId = some user)
    (hb : user.tonBalance < amount) :
    createBet db newBetId chatId roundId amount Currency.ton = .error .insufficientBalance := by
  simp [createBet, hv, hr, hs, hdup, hu, hb]

/-- A Stars balance below the stake makes `createBet` fail with the
insufficient-balance error. -/
theorem createBet_insufficient_stars {db : Db} {newBetId chatId roundId : String}
    {amount : ℚ} {round : GameRound} {user : User}
    (hv : isValidBetAmount amount Currency.stars = true)
    (hr : findRound db roundId = some round)
    (hs : round.status = GameStatus.betting)
    (hdup : findBetByUserRound db chatId roundId = none)
    (hu : findUser db chatId = some user)
    (hb : (user.starsBalance : ℚ) < amount) :
    createBet db newBetId chatId roundId amount Currency.stars = .error .insufficientBalance := by
  simp [createBet, hv, hr, hs, hdup, hu, hb]

/-- A successful `cashoutBet` implies every precondition — the bet exists
and was not cashed out, and its round is in the flying phase — and
describes the committed state: the updated bet row and the credited
balance (exact for TON, floored for Stars). -/
theorem cashoutBet_ok_elim {db : Db} {betId : String} {m : ℚ} {db' : Db}
    {bet' : Bet} {payout : ℚ}
    (h : cashoutBet db betId m = .ok (db', bet', payout)) :
    ∃ bet round,
      findBet db betId = some bet ∧ bet.cashedOut = false ∧
      findRound db bet.roundId = some round ∧ round.status = GameStatus.flying ∧
      bet' = { bet with cashoutAt := some m, cashedOut := true, profit := some (calculateWinnings bet.amount m) } ∧
      payout = bet.amount + calculateWinnings bet.amount m ∧
      db'.rounds = db.rounds ∧
      db'.bets = db.bets.map (fun b => if b.id == betId then bet' else b) ∧
      (bet.currency = .ton → db'.users = db.users.map
        (fun u => if u.chatId == bet.chatId then
          { u with tonBalance := u.tonBalance + payout } else u)) ∧
      (bet.currency = .stars → db'.users = db.users.map
        (fun u => if u.chatId == bet.chatId then
          { u with starsBalance := u.starsBalance + ⌊payout⌋ } else u)) := by
  unfold cashoutBet at h
  split at h
  · exact absurd h (by simp)
  · rename_i bet hb
    split at h
    · exact absurd h (by simp)
    · rename_i hc
      split at h
      · exact absurd h (by simp)
      · rename_i round hr
        split at h
        · exact absurd h (by simp)
        · rename_i hs
          refine ⟨bet, round, hb, by simpa using hc, hr, not_not.mp hs, ?_⟩
          simp only [Except.ok.injEq, Prod.mk.injEq] at h
          obtain ⟨hdb, hbet, hpay⟩ := h
          subst hdb
          subst hbet
          subst hpay
          refine ⟨rfl, rfl, ?_, ?_, ?_, ?_⟩ <;>
            first
              | (cases hcur : bet.currency <;> rfl)
              | (intro hcur
                 cases hcur' : bet.currency <;> simp_all [updateUser])

/-- A bet whose round is no longer flying makes `cashoutBet` fail with
the round-not-live error (the transaction throws and commits nothing). -/
theorem cashoutBet_roundNotLive {db : Db} {betId : String} {m : ℚ}
    {bet : Bet} {round : GameRound}
    (hb : findBet db betId = some bet) (hc : bet.cashedOut = false)
    (hr : findRound db bet.roundId = some round)
    (hs : round.status ≠ GameStatus.flying) :
    cashoutBet db betId m = .error .roundNotLive := by
  simp [cashoutBet, hb, hc, hr, hs]

/-- After a successful `createBet`, a second `createBet` for the same
(account, round) pair fails with the duplicate-bet error. -/
theorem createBet_then_duplicate {db db' : Db} {n1 n2 chatId roundId : String}
    {amount : ℚ} {currency : Currency} {bet : Bet}
    (h : createBet db n1 chatId roundId amount currency = .ok (db', bet)) :
    createBet db' n2 chatId roundId amount currency = .error .duplicateBet := by
  obtain ⟨hv, round, user, hr, hs, hdup, hu, _, _, hbet, hrounds, hbets, husers⟩ :=
    createBet_ok_elim h
  have hr' : findRound db' roundId = some round := by
    unfold findRound
    rw [hrounds]
    exact hr
  have hdup' : findBetByUserRound db' chatId roundId = some bet := by
    unfold findBetByUserRound at hdup ⊢
    rw [hbets, List.find?_append, hdup]
    simp [hbet]
  exact createBet_duplicateBet hv hr' hs hdup'

/-- `createBet` preserves the per-(account, round) uniqueness invariant:
the appended row cannot collide, because the transaction's duplicate
check saw no bet of that user in that round. -/
theorem createBet_preserves_uniqueBets {db db' : Db} {n chatId roundId : String}
    {amount : ℚ} {currency : Currency} {bet : Bet}
    (hub : UniqueBets db)
    (h : createBet db n chatId roundId amount currency = .ok (db', bet)) :
    UniqueBets db' := by
  obtain ⟨_, round, user, _, _, hdup, _, _, _, hbet, _, hbets, _⟩ := createBet_ok_elim h
  unfold UniqueBets at hub ⊢
  rw [hbets]
  rw [List.pairwise_append]
  refine ⟨hub, List.pairwise_singleton _ _, ?_⟩
  intro a ha b hb hab
  unfold findBetByUserRound at hdup
  rw [List.find?_eq_none] at hdup
  have := hdup a ha
  simp only [List.mem_singleton] at hb
  subst hb
  obtain ⟨h1, h2⟩ := hab
  rw [hbet] at h1 h2
  simp only at h1 h2
  exact this (by simp [h1, h2])

/-- In a bets table with unique primary keys, two member rows with the
same id are the same row. -/
theorem pairwise_ne_id_inj {l : List Bet} (h : l.Pairwise (fun a b => a.id ≠ b.id)) :
    ∀ x ∈ l, ∀ y ∈ l, x.id = y.id → x = y := by
  induction l with
  | nil => simp
  | cons a t ih =>
    simp only [List.pairwise_cons] at h
    obtain ⟨ha, ht⟩ := h
    intro x hx y hy hxy
    rcases List.mem_cons.mp hx with rfl | hx' <;> rcases List.mem_cons.mp hy with rfl | hy'
    · rfl
    · exact absurd hxy (ha y hy')
    · exact absurd hxy.symm (ha x hx')
    · exact ih ht x hx' y hy' hxy

/-- `cashoutBet` preserves the per-(account, round) uniqueness invariant:
the bets table is mapped by a function that keeps each row's
`(chatId, roundId)` pair (given primary-key uniqueness of bet ids). -/
theorem cashoutBet_preserves_uniqueBets {db db' : Db} {betId : String} {m : ℚ}
    {bet' : Bet} {payout : ℚ}
    (hub : UniqueBets db) (hids : UniqueBetIds db)
    (h : cashoutBet db betId m = .ok (db', bet', payout)) :
    UniqueBets db' := by
  obtain ⟨bet, round, hb, hc, hr, hs, hbet, hpay, hrounds, hbets, _⟩ := cashoutBet_ok_elim h
  have hb2 : db.bets.find? (fun b => b.id == betId) = some bet := hb
  have hbetmem : bet ∈ db.bets := List.mem_of_find?_eq_some hb2
  have hbetid : (bet.id == betId) = true := by simpa using List.find?_some hb2
  have hpair : ∀ x ∈ db.bets,
      ((fun b => if b.id == betId then bet' else b) x).chatId = x.chatId ∧
      ((fun b => if b.id == betId then bet' else b) x).roundId = x.roundId := by
    intro x hx
    by_cases hxid : (x.id == betId) = true
    · have hxbet : x = bet := by
        refine pairwise_ne_id_inj hids x hx bet hbetmem ?_
        simp only [beq_iff_eq] at hxid hbetid
        rw [hxid, hbetid]
      subst hxbet
      simp [hxid, hbet]
    · simp [hxid]
  unfold UniqueBets at hub ⊢
  rw [hbets, List.pairwise_map]
  refine List.Pairwise.imp_of_mem ?_ hub
  intro a b ha hb' hrab hcon
  obtain ⟨hca, hra⟩ := hpair a ha
  obtain ⟨hcb, hrb⟩ := hpair b hb'
  refine hrab ⟨?_, ?_⟩
  · rw [← hca, ← hcb]
    exact hcon.1
  · rw [← hra, ← hrb]
    exact hcon.2

/-- `finalizeBetLoss` keeps the id field. -/
theorem finalizeBetLoss_id (roundId : String) (b : Bet) :
    (finalizeBetLoss roundId b).id = b.id := by
  unfold finalizeBetLoss
  split <;> rfl

/-- `finalizeBetLoss` keeps the chatId field. -/
theorem finalizeBetLoss_chatId (roundId : String) (b : Bet) :
    (finalizeBetLoss roundId b).chatId = b.chatId := by
  unfold finalizeBetLoss
  split <;> rfl

/-- `finalizeBetLoss` keeps the roundId field. -/
theorem finalizeBetLoss_roundId (roundId : String) (b : Bet) :
    (finalizeBetLoss roundId b).roundId = b.roundId := by
  unfold finalizeBetLoss
  split <;> rfl

/-- `finalizeBetLoss` keeps the cashedOut flag. -/
theorem finalizeBetLoss_cashedOut (roundId : String) (b : Bet) :
    (finalizeBetLoss roundId b).cashedOut = b.cashedOut := by
  unfold finalizeBetLoss
  split <;> rfl

/-- `finalizeBetLoss` is idempotent. -/
theorem finalizeBetLoss_idem (roundId : String) (b : Bet) :
    finalizeBetLoss roundId (finalizeBetLoss roundId b) = finalizeBetLoss roundId b := by
  by_cases hc : b.roundId = roundId ∧ b.cashedOut = false <;>
    simp [finalizeBetLoss, hc]

/-- `finalizeBetsInRound` preserves the per-(account, round) uniqueness
invariant: `finalizeBetLoss` keeps each row's `(chatId, roundId)` pair. -/
theorem finalizeBetsInRound_preserves_uniqueBets {db : Db} {roundId : String}
    (hub : UniqueBets db) : UniqueBets (finalizeBetsInRound db roundId) := by
  unfold UniqueBets at hub ⊢
  unfold finalizeBetsInRound
  rw [List.pairwise_map]
  refine List.Pairwise.imp_of_mem ?_ hub
  intro a b _ _ hrab hcon
  rw [finalizeBetLoss_chatId, finalizeBetLoss_chatId, finalizeBetLoss_roundId,
    finalizeBetLoss_roundId] at hcon
  exact hrab hcon

/-- `updateRoundStatus` leaves the bets table untouched, so it preserves
the uniqueness invariant. -/
theorem updateRoundStatus_preserves_uniqueBets {db : Db} {roundId : String}
    {status : GameStatus} (hub : UniqueBets db) :
    UniqueBets (updateRoundStatus db roundId status) := hub

/-! ## Claim theorems -/


/-! ### Binary64 evaluations used for the raw-map exactness question -/

/-- The double nearest 0.9 (the JS value `0.9`): `8106479329266893·2⁻⁵³`,
slightly above 9/10. -/
theorem fpRound_nine_tenths : fpRound (9 / 10) = 8106479329266893 / 9007199254740992 := by
  have h : fpRoundFrac 9 10 = (8106479329266893, -53) := by decide
  rw [fpRound]
  norm_num [h, mantExp, show (53 : ℤ).toNat = 53 from rfl]

/-- The double nearest 0.9999 (the clamp bound). -/
theorem fpRound_cap9999 : fpRound (9999 / 10000) = 9006298534815518 / 9007199254740992 := by
  have h : fpRoundFrac 9999 10000 = (9006298534815518, -53) := by decide
  rw [fpRound]
  norm_num [h, mantExp, show (53 : ℤ).toNat = 53 from rfl]

/-- 0 is a double. -/
theorem fpRound_zero : fpRound 0 = 0 := by
  rw [fpRound]
  norm_num

/-- 1 is a double. -/
theorem fpRound_one : fpRound 1 = 1 := by
  have h : fpRoundFrac 1 1 = (4503599627370496, -52) := by decide
  rw [fpRound]
  norm_num [h, mantExp, show (52 : ℤ).toNat = 52 from rfl]

/-- 0.5 is a double. -/
theorem fpRound_half : fpRound (1 / 2) = 1 / 2 := by
  have h : fpRoundFrac 1 2 = (4503599627370496, -53) := by decide
  rw [fpRound]
  norm_num [h, mantExp, show (53 : ℤ).toNat = 53 from rfl]

/-- `1.0 - 0.9` in doubles: the exact difference of 1 and the double 0.9
is itself representable, about 0.09999999999999998. -/
theorem fpSub_one_nine_tenths :
    fpSub 1 (8106479329266893 / 9007199254740992) = 900719925474099 / 9007199254740992 := by
  have h : fpRoundFrac 900719925474099 9007199254740992 = (7205759403792792, -56) := by
    decide
  rw [fpSub]
  norm_num
  rw [fpRound]
  norm_num [h, mantExp, show (56 : ℤ).toNat = 56 from rfl]

/-- `1.0 / (1.0 - 0.9)` in doubles: `5629499534213121·2⁻⁴⁹`, the value JS
prints as `10.000000000000002` — not 10. -/
theorem fpDiv_one_recip :
    fpDiv 1 (900719925474099 / 9007199254740992) = 5629499534213121 / 562949953421312 := by
  have h : fpRoundFrac 9007199254740992 900719925474099 = (5629499534213121, -49) := by
    decide
  rw [fpDiv]
  norm_num
  rw [fpRound]
  norm_num [h, mantExp, show (49 : ℤ).toNat = 49 from rfl]

/-- `1.0 - 0.5` in doubles is exact. -/
theorem fpSub_one_half : fpSub 1 (1 / 2) = 1 / 2 := by
  rw [fpSub]
  norm_num
  exact fpRound_half

/-- `1.0 / 0.5` in doubles is exactly 2. -/
theorem fpDiv_one_half : fpDiv 1 (1 / 2) = 2 := by
  have h : fpRoundFrac 2 1 = (4503599627370496, -51) := by decide
  rw [fpDiv]
  norm_num
  rw [fpRound]
  norm_num [h, mantExp, show (51 : ℤ).toNat = 51 from rfl]

/-- The binary64 run of the source map at the reachable input 0.9. -/
theorem normalizedToMultiplierFP_nine_tenths :
    normalizedToMultiplierFP (9 / 10) = 5629499534213121 / 562949953421312 := by
  show fpDiv (fpRound 1) (fpSub (fpRound 1)
    (max (fpRound 0) (min (fpRound (9999 / 10000)) (fpRound (9 / 10))))) =
      5629499534213121 / 562949953421312
  rw [fpRound_nine_tenths, fpRound_cap9999, fpRound_zero, fpRound_one]
  rw [show min ((9006298534815518 : ℚ) / 9007199254740992)
      (8106479329266893 / 9007199254740992) = 8106479329266893 / 9007199254740992 from by
    rw [min_eq_right]
    norm_num]
  rw [show max (0 : ℚ) (8106479329266893 / 9007199254740992) =
      8106479329266893 / 9007199254740992 from by
    rw [max_eq_right]
    norm_num]
  rw [fpSub_one_nine_tenths, fpDiv_one_recip]

/-- The binary64 run of the source map at the input 0.5 is exactly 2. -/
theorem normalizedToMultiplierFP_half : normalizedToMultiplierFP (1 / 2) = 2 := by
  show fpDiv (fpRound 1) (fpSub (fpRound 1)
    (max (fpRound 0) (min (fpRound (9999 / 10000)) (fpRound (1 / 2))))) = 2
  rw [fpRound_half, fpRound_cap9999, fpRound_zero, fpRound_one]
  rw [show min ((9006298534815518 : ℚ) / 9007199254740992) (1 / 2) = 1 / 2 from by
    rw [min_eq_right]
    norm_num]
  rw [show max (0 : ℚ) (1 / 2) = 1 / 2 from by
    rw [max_eq_right]
    norm_num]
  rw [fpSub_one_half, fpDiv_one_half]

/-- C6 counterexample: under the source's IEEE-754 binary64 semantics
(`normalizedToMultiplierFP`, the expression
`1.0 / (1.0 - Math.max(0, Math.min(0.9999, n)))` with each operation
rounded to the nearest double), the reachable input `n = 0.9` yields
`5629499534213121 / 562949953421312` — the double JS prints as
`10.000000000000002` — and not exactly `10.0`; exactly 10 is obtained
only under the idealized exact-rational reading of the arithmetic. -/
theorem normalizedToMultiplierFP_ninety_not_ten :
    normalizedToMultiplierFP (9 / 10) = 5629499534213121 / 562949953421312 ∧
    normalizedToMultiplierFP (9 / 10) ≠ 10 ∧
    normalizedToMultiplier (9 / 10) = 10 := by
  refine ⟨normalizedToMultiplierFP_nine_tenths, ?_, ?_⟩
  · rw [normalizedToMultiplierFP_nine_tenths]
    norm_num
  · norm_num [normalizedToMultiplier]

/-- C6 amended: the map from the normalized value `n` to the crash
multiplier is `m = 1 / (1 - clamp(n, 0, 0.9999))`; for `n = 0.5` the
multiplier is exactly `2.0` under both the exact and the binary64
semantics of the source expression; for `n = 0.9` the exact value is
`10.0` but the source's double evaluation returns
`10.000000000000002` (= `5629499534213121 / 562949953421312`), which
becomes exactly `10.0` again only after the downstream two-decimal
rounding. -/
theorem normalizedToMultiplier_formula_and_values :
    (∀ n : ℚ, normalizedToMultiplier n = 1 / (1 - max 0 (min (9999 / 10000) n))) ∧
    normalizedToMultiplier (1 / 2) = 2 ∧
    normalizedToMultiplierFP (1 / 2) = 2 ∧
    normalizedToMultiplier (9 / 10) = 10 ∧
    normalizedToMultiplierFP (9 / 10) = 5629499534213121 / 562949953421312 ∧
    (jsRound (normalizedToMultiplierFP (9 / 10) * 100) : ℚ) / 100 = 10 := by
  refine ⟨fun n => rfl, by norm_num [normalizedToMultiplier],
    normalizedToMultiplierFP_half, by norm_num [normalizedToMultiplier],
    normalizedToMultiplierFP_nine_tenths, ?_⟩
  rw [normalizedToMultiplierFP_nine_tenths]
  norm_num [jsRound]

/-- C8: `finalizeBetsInRound` changes no account balance, leaves every
already cashed-out bet untouched, marks every not-cashed-out bet of the
round as resolved with `profit = -amount` (zero net payout: the stake was
already debited), and is idempotent. -/
theorem finalizeBetsInRound_correct :
    (∀ db roundId, (finalizeBetsInRound db roundId).users = db.users ∧
      (finalizeBetsInRound db roundId).rounds = db.rounds) ∧
    (∀ db roundId b, b ∈ db.bets → b.cashedOut = true →
      b ∈ (finalizeBetsInRound db roundId).bets) ∧
    (∀ db roundId b, b ∈ (finalizeBetsInRound db roundId).bets → b.roundId = roundId →
      b.cashedOut = true ∨ (b.profit = some (-b.amount) ∧ b.amount + -b.amount = 0)) ∧
    (∀ db roundId, finalizeBetsInRound (finalizeBetsInRound db roundId) roundId =
      finalizeBetsInRound db roundId) := by
  refine ⟨fun db roundId => ⟨rfl, rfl⟩, ?_, ?_, ?_⟩
  · intro db roundId b hb hc
    have himg : finalizeBetLoss roundId b = b := by
      simp [finalizeBetLoss, hc]
    have : finalizeBetLoss roundId b ∈ (finalizeBetsInRound db roundId).bets :=
      List.mem_map_of_mem _ hb
    rwa [himg] at this
  · intro db roundId b hb hround
    obtain ⟨x, hx, hbx⟩ := List.mem_map.mp hb
    by_cases hc : x.roundId = roundId ∧ x.cashedOut = false
    · right
      have : b = { x with profit := some (-x.amount) } := by
        rw [← hbx]
        simp [finalizeBetLoss, hc]
      subst this
      simp
    · left
      have hbeq : b = x := by
        rw [← hbx]
        simp only [finalizeBetLoss]
        rw [if_neg]
        simpa using hc
      subst hbeq
      rcases not_and_or.mp hc with hr | hco
      · exact absurd hround hr
      · simpa using hco
  · intro db roundId
    unfold finalizeBetsInRound
    simp only [List.map_map]
    congr 1
    refine List.map_congr_left fun x _ => ?_
    exact finalizeBetLoss_idem roundId x

/-- Closed instance of the hypotheses of `finalizeBetsInRound_correct`:
the cashed-out fixture bet is untouched by the settlement of its round. -/
theorem finalizeBetsInRound_correct_witness :
    betCashed ∈ dbCrashed.bets ∧ betCashed.cashedOut = true ∧
    betCashed ∈ (finalizeBetsInRound dbCrashed "r1").bets := by
  refine ⟨by simp [dbCrashed], rfl, ?_⟩
  exact finalizeBetsInRound_correct.2.1 dbCrashed "r1" betCashed (by simp [dbCrashed]) rfl

/-- C9 counterexample: the crashed fixture round is settled, yet the REST
`getRound` endpoint's response carries no `serverSeed` key at all, so the
secret seed is not disclosed to that external reader even after
settlement, contradicting the claim's "present if and only if settled". -/
theorem getRound_endpoint_hides_serverSeed :
    roundCrashed.status = GameStatus.crashed ∧
    (convertRoundData roundCrashed).serverSeed = some "a" ∧
    (getRoundResponse (convertRoundData roundCrashed)).serverSeed = none := by
  refine ⟨rfl, ?_, ?_⟩ <;> rfl

/-- C9 amended: the service-level read (`getRoundById` via
`convertRoundData`) populates `serverSeed` and `crashPoint` if and only if
the round is crashed; the REST `getRound` endpoint populates `crashPoint`
if and only if the round is crashed and never populates `serverSeed`. -/
theorem round_disclosure_gating :
    (∀ r : GameRound, r.status = GameStatus.crashed →
      (convertRoundData r).serverSeed = some r.serverSeed ∧
      (convertRoundData r).crashPoint = some r.crashPoint ∧
      (getRoundResponse (convertRoundData r)).crashPoint = some r.crashPoint) ∧
    (∀ r : GameRound, r.status ≠ GameStatus.crashed →
      (convertRoundData r).serverSeed = none ∧
      (convertRoundData r).crashPoint = none ∧
      (getRoundResponse (convertRoundData r)).crashPoint = none) ∧
    (∀ r : GameRound, (getRoundResponse (convertRoundData r)).serverSeed = none) := by
  refine ⟨?_, ?_, ?_⟩
  · intro r h
    simp [convertRoundData, getRoundResponse, h]
  · intro r h
    simp [convertRoundData, getRoundResponse, h]
  · intro r
    by_cases h : r.status = GameStatus.crashed <;>
      simp [convertRoundData, getRoundResponse, h]

/-- Closed instance of `round_disclosure_gating` at the crashed fixture
round. -/
theorem round_disclosure_gating_witness :
    roundCrashed.status = GameStatus.crashed ∧
    (convertRoundData roundCrashed).serverSeed = some roundCrashed.serverSeed ∧
    (convertRoundData roundCrashed).crashPoint = some roundCrashed.crashPoint ∧
    (getRoundResponse (convertRoundData roundCrashed)).crashPoint =
      some roundCrashed.crashPoint := by
  refine ⟨rfl, ?_⟩
  exact round_disclosure_gating.1 roundCrashed rfl

/-- C1: the crash point stored by `createRound` is **not** reproducible
from the data the round record discloses.  Two rounds created from the
same server seed but different fresh client seeds (`generateClientSeed()`
randomness, which the round record has no field for) disclose identical
`serverSeed` and `hashedServerSeed` yet store different crash points, and
recomputing the generator from the disclosed seed (with the empty client
seed, the only choice available to an external verifier) does not match
the stored value. -/
theorem crashPoint_not_reproducible_from_disclosure :
    (createRound "r1" "a" "b").serverSeed = (createRound "r2" "a" "bb").serverSeed ∧
    (createRound "r1" "a" "b").hashedServerSeed =
      (createRound "r2" "a" "bb").hashedServerSeed ∧
    (createRound "r1" "a" "b").crashPoint ≠ (createRound "r2" "a" "bb").crashPoint ∧
    generateCrashMultiplierRounded "a" "" ≠ (createRound "r1" "a" "b").crashPoint := by
  have h1 : generateCrashMultiplierRounded "a" "b" = 237 / 100 := by
    rw [generateCrashMultiplierRounded_eq_of_mod "a" "b" 5772 (by decide)]
    norm_num [jsRound]
  have h2 : generateCrashMultiplierRounded "a" "bb" = 143 / 100 := by
    rw [generateCrashMultiplierRounded_eq_of_mod "a" "bb" 3019 (by decide)]
    norm_num [jsRound]
  have h3 : generateCrashMultiplierRounded "a" "" = 295 / 100 := by
    rw [generateCrashMultiplierRounded_eq_of_mod "a" "" 6610 (by decide)]
    norm_num [jsRound]
  refine ⟨rfl, rfl, ?_, ?_⟩
  · show generateCrashMultiplierRounded "a" "b" ≠ generateCrashMultiplierRounded "a" "bb"
    rw [h1, h2]
    norm_num
  · show generateCrashMultiplierRounded "a" "" ≠ generateCrashMultiplierRounded "a" "b"
    rw [h3, h1]
    norm_num

/-- C2: under the exact (decimal) reading of the money arithmetic, the
scenario holds: a 10 TON stake cashed out at multiplier 2.50 with the 1%
fee on gross winnings gives profit `10·2.5 − 10·2.5·0.01 − 10 = 14.75`
(gross 25, fee 0.25), and the committed cash-out credits exactly
`24.75`: the fixture balance goes from 100 to `100 + 24.75`.  (The
implementation computes these quantities in binary floating point via
`Decimal.toNumber()`; for this scenario the float result coincides with
the exact one, but not in general — see the resolution notes.) -/
theorem cashout_scenario_exact_values :
    calculateWinnings 10 (5 / 2) =
      10 * (5 / 2) - 10 * (5 / 2) * GAME_CONFIG.HOUSE_FEE - 10 ∧
    calculateWinnings 10 (5 / 2) = 59 / 4 ∧
    cashoutBet dbFlying "b1" (5 / 2) = .ok
      ({ users := [{ chatId := "u1", tonBalance := 100 + 99 / 4, starsBalance := 100 }],
         rounds := [roundFlying],
         bets := [{ betOpen with cashoutAt := some (5 / 2), cashedOut := true, profit := some (59 / 4) }, betCashed] },
       { betOpen with cashoutAt := some (5 / 2), cashedOut := true, profit := some (59 / 4) },
       99 / 4) := by
  refine ⟨?_, ?_, ?_⟩
  · norm_num [calculateWinnings, GAME_CONFIG]
  · norm_num [calculateWinnings, GAME_CONFIG]
  · norm_num [cashoutBet, findBet, findRound, dbFlying, betOpen, betCashed, roundFlying,
      roundBetting, userT, updateUser, calculateWinnings, GAME_CONFIG, List.find?,
      show ¬("b2" : String) = "b1" from by decide]

/-- C3: `cashoutBet` commits only when the bet exists, is not yet cashed
out, and the bet's round is in the flying phase — all checked inside the
single transaction (one total function here) that also performs the
credit.  Once the round has left the flying phase it fails with the
round-not-live error; the failing transaction returns no state, so
balances and bets are unchanged, and the bet is then settled as a loss by
`finalizeBetsInRound` (balances untouched, `profit = -amount`). -/
theorem cashout_only_while_flying :
    (∀ db betId m db' bet' payout,
      cashoutBet db betId m = .ok (db', bet', payout) →
      ∃ bet round, findBet db betId = some bet ∧ bet.cashedOut = false ∧
        findRound db bet.roundId = some round ∧ round.status = GameStatus.flying) ∧
    (∀ db betId m bet round,
      findBet db betId = some bet → bet.cashedOut = false →
      findRound db bet.roundId = some round → round.status ≠ GameStatus.flying →
      cashoutBet db betId m = .error .roundNotLive ∧
      (finalizeBetsInRound db bet.roundId).users = db.users ∧
      finalizeBetLoss bet.roundId bet ∈ (finalizeBetsInRound db bet.roundId).bets ∧
      (finalizeBetLoss bet.roundId bet).profit = some (-bet.amount) ∧
      (finalizeBetLoss bet.roundId bet).id = bet.id ∧
      (finalizeBetLoss bet.roundId bet).cashedOut = false) := by
  constructor
  · intro db betId m db' bet' payout h
    obtain ⟨bet, round, hb, hc, hr, hs, _⟩ := cashoutBet_ok_elim h
    exact ⟨bet, round, hb, hc, hr, hs⟩
  · intro db betId m bet round hb hc hr hs
    have hb2 : db.bets.find? (fun b => b.id == betId) = some bet := hb
    have hmem : bet ∈ db.bets := List.mem_of_find?_eq_some hb2
    refine ⟨cashoutBet_roundNotLive hb hc hr hs, rfl, List.mem_map_of_mem _ hmem, ?_,
      finalizeBetLoss_id _ _, ?_⟩
    · simp [finalizeBetLoss, hc]
    · rw [finalizeBetLoss_cashedOut]
      exact hc

/-- Closed instance of `cashout_only_while_flying`: in the crashed fixture
state, cashing out the open bet fails with the round-not-live error. -/
theorem cashout_only_while_flying_witness :
    findBet dbCrashed "b1" = some betOpen ∧
    roundCrashed.status ≠ GameStatus.flying ∧
    cashoutBet dbCrashed "b1" 2 = .error .roundNotLive ∧
    (finalizeBetsInRound dbCrashed betOpen.roundId).users = dbCrashed.users := by
  refine ⟨rfl, by decide, ?_⟩
  have h := cashout_only_while_flying.2 dbCrashed "b1" 2 betOpen roundCrashed rfl rfl rfl
    (by decide)
  exact ⟨h.1, h.2.1⟩

/-- C4 counterexample: a Stars bet with the fractional stake 10.5 (valid:
the Stars bounds are 10 and 1000 and carry no integrality check) succeeds
but debits `Math.floor(10.5) = 10` from the integer Stars balance, not
the stake itself: the balance drops from 100 to 90 while the claim's
"debits the balance by exactly the stake" demands a drop of 10.5. -/
theorem createBet_stars_debit_counterexample :
    createBet dbStars "b9" "u2" "r1" (21 / 2) Currency.stars = .ok
      ({ users := [{ chatId := "u2", tonBalance := 0, starsBalance := 90 }],
         rounds := [roundBetting],
         bets := [{ id := "b9", chatId := "u2", roundId := "r1", amount := 21 / 2, currency := Currency.stars, cashoutAt := none, cashedOut := false, profit := none }] },
       { id := "b9", chatId := "u2", roundId := "r1", amount := 21 / 2, currency := Currency.stars, cashoutAt := none, cashedOut := false, profit := none }) ∧
    ((100 : ℚ) - 90) ≠ 21 / 2 := by
  constructor
  · norm_num [createBet, isValidBetAmount, GAME_CONFIG, findRound, findBetByUserRound,
      findUser, updateUser, dbStars, roundBetting, userS, List.find?,
      show ¬(Currency.stars = Currency.ton) from by decide]
  · norm_num

/-- C4 amended: `createBet` succeeds only when the round exists in the
betting phase, the account has no bet in the round, and the balance
covers the stake; on success it inserts exactly one new bet row with
`cashedOut = false`, `cashoutAt = null`, `profit = null` and debits the
balance — by exactly the stake for TON, and by `floor(stake)` for Stars.
An existing non-betting round yields the round-not-accepting-bets error,
a duplicate yields the duplicate-bet error, and a too-small balance the
insufficient-balance error; a failing transaction returns no state. -/
theorem createBet_characterization :
    (∀ db n chatId roundId amount currency db' bet,
      createBet db n chatId roundId amount currency = .ok (db', bet) →
      (∃ round, findRound db roundId = some round ∧
        round.status = GameStatus.betting) ∧
      findBetByUserRound db chatId roundId = none ∧
      (∃ user, findUser db chatId = some user ∧
        (currency = .ton → amount ≤ user.tonBalance) ∧
        (currency = .stars → amount ≤ (user.starsBalance : ℚ))) ∧
      bet = { id := n, chatId := chatId, roundId := roundId, amount := amount, currency := currency, cashoutAt := none, cashedOut := false, profit := none } ∧
      db'.bets = db.bets ++ [bet] ∧ db'.rounds = db.rounds ∧
      (currency = .ton → db'.users = (updateUser db chatId
        (fun u => { u with tonBalance := u.tonBalance - amount })).users) ∧
      (currency = .stars → db'.users = (updateUser db chatId
        (fun u => { u with starsBalance := u.starsBalance - ⌊amount⌋ })).users)) ∧
    (∀ db n chatId roundId amount currency round,
      isValidBetAmount amount currency = true →
      findRound db roundId = some round → round.status ≠ GameStatus.betting →
      createBet db n chatId roundId amount currency = .error .roundNotAcceptingBets) ∧
    (∀ db n chatId roundId amount currency round b,
      isValidBetAmount amount currency = true →
      findRound db roundId = some round → round.status = GameStatus.betting →
      findBetByUserRound db chatId roundId = some b →
      createBet db n chatId roundId amount currency = .error .duplicateBet) ∧
    (∀ db n chatId roundId amount round user,
      isValidBetAmount amount Currency.ton = true →
      findRound db roundId = some round → round.status = GameStatus.betting →
      findBetByUserRound db chatId roundId = none →
      findUser db chatId = some user → user.tonBalance < amount →
      createBet db n chatId roundId amount Currency.ton = .error .insufficientBalance) ∧
    (∀ db n chatId roundId amount round user,
      isValidBetAmount amount Currency.stars = true →
      findRound db roundId = some round → round.status = GameStatus.betting →
      findBetByUserRound db chatId roundId = none →
      findUser db chatId = some user → (user.starsBalance : ℚ) < amount →
      createBet db n chatId roundId amount Currency.stars = .error .insufficientBalance) := by
  refine ⟨?_, ?_, ?_, ?_, ?_⟩
  · intro db n chatId roundId amount currency db' bet h
    obtain ⟨hv, round, user, hr, hs, hdup, hu, hton, hstars, hbet, hrounds, hbets, husers⟩ :=
      createBet_ok_elim h
    refine ⟨⟨round, hr, hs⟩, hdup, ⟨user, hu, hton, hstars⟩, hbet, hbets, hrounds, ?_, ?_⟩
    · intro hc
      subst hc
      exact husers
    · intro hc
      subst hc
      exact husers
  · intro db n chatId roundId amount currency round hv hr hs
    exact createBet_roundNotAcceptingBets hv hr hs
  · intro db n chatId roundId amount currency round b hv hr hs hdup
    exact createBet_duplicateBet hv hr hs hdup
  · intro db n chatId roundId amount round user hv hr hs hdup hu hb
    exact createBet_insufficient_ton hv hr hs hdup hu hb
  · intro db n chatId roundId amount round user hv hr hs hdup hu hb
    exact createBet_insufficient_stars hv hr hs hdup hu hb

/-- Closed instance of `createBet_characterization`: placing a bet on the
flying fixture round fails with the round-not-accepting-bets error. -/
theorem createBet_characterization_witness :
    isValidBetAmount 10 Currency.ton = true ∧
    findRound dbFlying "r1" = some roundFlying ∧
    roundFlying.status ≠ GameStatus.betting ∧
    createBet dbFlying "n1" "u1" "r1" 10 Currency.ton = .error .roundNotAcceptingBets := by
  have hv : isValidBetAmount 10 Currency.ton = true := by
    norm_num [isValidBetAmount, GAME_CONFIG]
  refine ⟨hv, rfl, by decide, ?_⟩
  exact createBet_characterization.2.1 dbFlying "n1" "u1" "r1" 10 Currency.ton roundFlying
    hv rfl (by decide)

/-- C5: every ledger operation preserves the at-most-one-bet-per
(account, round) invariant (`cashoutBet` under primary-key uniqueness of
bet ids), and racing duplicate `createBet` calls — serialized by the
transaction, so modelled as consecutive runs — leave exactly one winner:
after one success, the second call for the same pair fails with the
duplicate-bet error. -/
theorem unique_bet_per_pair :
    (∀ db n chatId roundId amount currency db' bet,
      UniqueBets db →
      createBet db n chatId roundId amount currency = .ok (db', bet) →
      UniqueBets db') ∧
    (∀ db betId m db' bet' payout,
      UniqueBets db → UniqueBetIds db →
      cashoutBet db betId m = .ok (db', bet', payout) → UniqueBets db') ∧
    (∀ db roundId, UniqueBets db → UniqueBets (finalizeBetsInRound db roundId)) ∧
    (∀ db roundId status, UniqueBets db →
      UniqueBets (updateRoundStatus db roundId status)) ∧
    (∀ db n1 n2 chatId roundId amount currency db' bet,
      createBet db n1 chatId roundId amount currency = .ok (db', bet) →
      createBet db' n2 chatId roundId amount currency = .error .duplicateBet) := by
  refine ⟨?_, ?_, ?_, ?_, ?_⟩
  · intro db n chatId roundId amount currency db' bet hub h
    exact createBet_preserves_uniqueBets hub h
  · intro db betId m db' bet' payout hub hids h
    exact cashoutBet_preserves_uniqueBets hub hids h
  · intro db roundId hub
    exact finalizeBetsInRound_preserves_uniqueBets hub
  · intro db roundId status hub
    exact updateRoundStatus_preserves_uniqueBets hub
  · intro db n1 n2 chatId roundId amount currency db' bet h
    exact createBet_then_duplicate h

/-- Closed instance of `unique_bet_per_pair`: from the betting fixture
state, the first 10 TON bet succeeds and a second bet by the same user in
the same round fails with the duplicate-bet error. -/
theorem unique_bet_per_pair_witness :
    UniqueBets dbBetting ∧
    createBet dbBetting "n1" "u1" "r1" 10 Currency.ton = .ok (dbAfterBet, betNew) ∧
    UniqueBets dbAfterBet ∧
    createBet dbAfterBet "n2" "u1" "r1" 10 Currency.ton = .error .duplicateBet := by
  have h1 : createBet dbBetting "n1" "u1" "r1" 10 Currency.ton = .ok (dbAfterBet, betNew) := by
    norm_num [createBet, isValidBetAmount, GAME_CONFIG, findRound, findBetByUserRound,
      findUser, updateUser, dbBetting, roundBetting, userT, dbAfterBet, userT90, betNew,
      List.find?]
  have hub : UniqueBets dbBetting := by
    simp [UniqueBets, dbBetting]
  refine ⟨hub, h1, ?_, ?_⟩
  · exact unique_bet_per_pair.1 dbBetting "n1" "u1" "r1" 10 Currency.ton dbAfterBet betNew
      hub h1
  · exact unique_bet_per_pair.2.2.2.2 dbBetting "n1" "n2" "u1" "r1" 10 Currency.ton
      dbAfterBet betNew h1

/-- C7 counterexample: the post-settlement verification (`verifyRound`) is
not the byte-for-byte commitment comparison the claim describes.  It is a
function of the two seeds and the expected multiplier only — it never
receives or compares the published `hashedServerSeed` — and it accepts an
expected multiplier that differs from the recomputed one, because it
compares multipliers within a `0.01` tolerance. -/
theorem verifyRound_tolerance_counterexample :
    (verifyRound "a" "b" (2500 / 1057 + 1 / 200)).verified = true ∧
    seedsToMultiplier "a" "b" ≠ 2500 / 1057 + 1 / 200 := by
  have hcalc : seedsToMultiplier "a" "b" = 2500 / 1057 := by
    rw [seedsToMultiplier_eq_of_mod "a" "b" 5772 (by decide)]
    norm_num
  constructor
  · simp only [verifyRound, if_neg (by simp : ¬(("a" : String) = "" ∨ ("b" : String) = ""))]
    simp only [hcalc, decide_eq_true_eq]
    rw [abs_sub_lt_iff]
    norm_num
  · rw [hcalc]
    norm_num

/-- C7 amended: the published commitment `hashedServerSeed` equals the
digest of the server seed alone (`SHA-256(serverSeed + "")`), is fixed at
round creation, and is never changed by the status updates of the round
lifecycle; post-settlement verification, however, recomputes the
multiplier from both seeds and accepts if and only if it is within `0.01`
of the expected multiplier (returning the recomputed seed hash merely as
a field of its result), and performs no commitment comparison. -/
theorem commitment_fixed_and_tolerance_verification :
    (∀ id s c, (createRound id s c).hashedServerSeed = calculateHash s "" ∧
      (createRound id s c).hashedServerSeed = sha256Hex s) ∧
    (∀ db roundId status r, r ∈ (updateRoundStatus db roundId status).rounds →
      ∃ r0 ∈ db.rounds, r.hashedServerSeed = r0.hashedServerSeed ∧ r.id = r0.id ∧
        r.serverSeed = r0.serverSeed ∧ r.crashPoint = r0.crashPoint) ∧
    (∀ s c m, s ≠ "" → c ≠ "" →
      ((verifyRound s c m).verified = true ↔ |seedsToMultiplier s c - m| < 1 / 100) ∧
      (verifyRound s c m).hash = some (calculateHash s c)) := by
  refine ⟨?_, ?_, ?_⟩
  · intro id s c
    refine ⟨rfl, ?_⟩
    show sha256Hex (s ++ "") = sha256Hex s
    rw [String.append_empty]
  · intro db roundId status r hr
    unfold updateRoundStatus at hr
    simp only [List.mem_map] at hr
    obtain ⟨r0, hmem, hr0⟩ := hr
    refine ⟨r0, hmem, ?_⟩
    by_cases hc : (r0.id == roundId) = true <;> simp [hc] at hr0 <;> subst hr0 <;>
      exact ⟨rfl, rfl, rfl, rfl⟩
  · intro s c m hs hc
    have hcond : ¬(s = "" ∨ c = "") := by
      rintro (h | h)
      · exact hs h
      · exact hc h
    constructor
    · simp only [verifyRound, if_neg hcond, decide_eq_true_eq]
    · simp only [verifyRound, if_neg hcond]

/-- Closed instance of `commitment_fixed_and_tolerance_verification`:
verification at the exact recomputed multiplier of the fixture seeds. -/
theorem commitment_fixed_and_tolerance_verification_witness :
    ("a" : String) ≠ "" ∧ ("b" : String) ≠ "" ∧
    ((verifyRound "a" "b" 1).verified = true ↔
      |seedsToMultiplier "a" "b" - 1| < 1 / 100) ∧
    (verifyRound "a" "b" 1).hash = some (calculateHash "a" "b") := by
  refine ⟨by decide, by decide, ?_⟩
  exact commitment_fixed_and_tolerance_verification.2.2 "a" "b" 1 (by decide) (by decide)

/-- C10: for the Stars currency the ledger arithmetic is integral: a
successful `createBet` debits `Math.floor(stake)` rather than the stake,
and a successful `cashoutBet` credits `Math.floor(stake + profit)`, an
integer never exceeding the exact rational payout. -/
theorem stars_integer_arithmetic :
    (∀ db n chatId roundId amount db' bet,
      createBet db n chatId roundId amount Currency.stars = .ok (db', bet) →
      db'.users = (updateUser db chatId
        (fun u => { u with starsBalance := u.starsBalance - ⌊amount⌋ })).users ∧
      (⌊amount⌋ : ℚ) ≤ amount) ∧
    (∀ db betId m db' bet' payout bet,
      cashoutBet db betId m = .ok (db', bet', payout) →
      findBet db betId = some bet → bet.currency = Currency.stars →
      payout = bet.amount + calculateWinnings bet.amount m ∧
      db'.users = db.users.map (fun u => if u.chatId == bet.chatId then
        { u with starsBalance := u.starsBalance + ⌊payout⌋ } else u) ∧
      (⌊payout⌋ : ℚ) ≤ payout) := by
  constructor
  · intro db n chatId roundId amount db' bet h
    obtain ⟨_, round, user, _, _, _, _, _, _, _, _, _, husers⟩ := createBet_ok_elim h
    exact ⟨husers, Int.floor_le amount⟩
  · intro db betId m db' bet' payout bet h hb hcur
    obtain ⟨bet0, round, hb0, _, _, _, _, hpay, _, _, _, hstars⟩ := cashoutBet_ok_elim h
    have hbet0 : bet0 = bet := by
      rw [hb0] at hb
      exact (Option.some.injEq _ _ ▸ hb :)
    subst hbet0
    exact ⟨hpay, hstars hcur, Int.floor_le payout⟩

/-- Closed instance of `stars_integer_arithmetic`: the fractional Stars
stake 10.5 is debited as 10. -/
theorem stars_integer_arithmetic_witness :
    createBet dbStars "b9" "u2" "r1" (21 / 2) Currency.stars = .ok
      ({ users := [{ chatId := "u2", tonBalance := 0, starsBalance := 90 }],
         rounds := [roundBetting],
         bets := [{ id := "b9", chatId := "u2", roundId := "r1", amount := 21 / 2, currency := Currency.stars, cashoutAt := none, cashedOut := false, profit := none }] },
       { id := "b9", chatId := "u2", roundId := "r1", amount := 21 / 2, currency := Currency.stars, cashoutAt := none, cashedOut := false, profit := none }) ∧
    ({ users := [{ chatId := "u2", tonBalance := 0, starsBalance := 90 }],
       rounds := [roundBetting],
       bets := [{ id := "b9", chatId := "u2", roundId := "r1", amount := 21 / 2, currency := Currency.stars, cashoutAt := none, cashedOut := false, profit := none }] } : Db).users =
      (updateUser dbStars "u2"
        (fun u => { u with starsBalance := u.starsBalance - ⌊(21 : ℚ) / 2⌋ })).users ∧
    ((⌊(21 : ℚ) / 2⌋ : ℚ)) ≤ 21 / 2 := by
  have h : createBet dbStars "b9" "u2" "r1" (21 / 2) Currency.stars = .ok
      ({ users := [{ chatId := "u2", tonBalance := 0, starsBalance := 90 }],
         rounds := [roundBetting],
         bets := [{ id := "b9", chatId := "u2", roundId := "r1", amount := 21 / 2, currency := Currency.stars, cashoutAt := none, cashedOut := false, profit := none }] },
       { id := "b9", chatId := "u2", roundId := "r1", amount := 21 / 2, currency := Currency.stars, cashoutAt := none, cashedOut := false, profit := none }) := by
    norm_num [createBet, isValidBetAmount, GAME_CONFIG, findRound, findBetByUserRound,
      findUser, updateUser, dbStars, roundBetting, userS, List.find?,
      show ¬(Currency.stars = Currency.ton) from by decide]
  exact ⟨h, stars_integer_arithmetic.1 dbStars "b9" "u2" "r1" (21 / 2) _ _ h⟩
